import Mathlib

/-
Verification of the tar-migration pipeline (main.py and gcs_uploader.py):
a shallow embedding of its path handling, classification, safe extraction,
per-job processing and orchestration, with theorems settling the spec's
claims about them.

Conventions of the embedding:
- The filesystem is the set of existing paths (`Fs`, a list of strings).
- Exceptions are `Except String`: `.error` is a raised exception, `.ok` a
  normal return.
- External processes (system tar, gcloud storage cp) are represented by
  their observable outcomes, supplied in a `JobEnv`; the commands the code
  builds for them are captured verbatim.
-/

namespace Barnacle

/-- Split a character list at a separator, mirroring Python's
`str.split(sep)` (adjacent separators yield empty pieces). -/
def splitCharsAux (sep : Char) : List Char → List Char → List String
  | [], acc => [String.mk acc.reverse]
  | c :: cs, acc =>
      if c = sep then String.mk acc.reverse :: splitCharsAux sep cs []
      else splitCharsAux sep cs (c :: acc)

/-- Python's `s.split(sep)` for a one-character separator. -/
def strSplit (sep : Char) (s : String) : List String :=
  splitCharsAux sep s.data []

/-- Join string pieces with a separator. -/
def strIntercalate (sep : String) : List String → String
  | [] => ""
  | [x] => x
  | x :: xs => x ++ sep ++ strIntercalate sep xs

/-- Whether `s` starts with `t` (character-wise). -/
def strStartsWith (s t : String) : Bool := t.data.isPrefixOf s.data

/-- Whether `s` ends with `t` (character-wise). -/
def strEndsWith (s t : String) : Bool := t.data.isSuffixOf s.data

/-- Lexical normalisation of an absolute path's components: empty and `.`
components are dropped and `..` pops the accumulated prefix, as
`os.path.abspath` / `Path.resolve` normalise lexically. -/
def normComponents (comps : List String) : List String :=
  comps.foldl
    (fun acc c =>
      if c = "" || c = "." then acc
      else if c = ".." then acc.dropLast
      else acc ++ [c]) []

/-- Components of the resolved form of an absolute path. -/
def resolveComps (p : String) : List String :=
  normComponents (strSplit '/' p)

/-- Resolved absolute path as a string (`os.path.abspath` on an absolute
input). -/
def abspath (p : String) : String :=
  "/" ++ strIntercalate "/" (resolveComps p)

/-- One-step `os.path.join(a, b)`: an absolute second argument discards the
first. -/
def osJoin (a b : String) : String :=
  if strStartsWith b "/" then b else a ++ "/" ++ b

/-- Longest common character prefix of two character lists. -/
def commonPrefixChars : List Char → List Char → List Char
  | a :: as, b :: bs => if a = b then a :: commonPrefixChars as bs else []
  | _, _ => []

/-- Python's `os.path.commonprefix([a, b])`: the longest common character
prefix of the two strings. -/
def osCommonPref (a b : String) : String :=
  String.mk (commonPrefixChars a.data b.data)

/-- Drop the common leading components of two component lists, returning the
two remainders. -/
def dropCommon : List String → List String → List String × List String
  | a :: as, b :: bs => if a = b then dropCommon as bs else (a :: as, b :: bs)
  | as, bs => (as, bs)

/-- Lexical `os.path.relpath(p, start)`. -/
def osRelpath (p start : String) : String :=
  let pr := dropCommon (resolveComps p) (resolveComps start)
  let comps := pr.2.map (fun _ => "..") ++ pr.1
  if comps.isEmpty then "." else strIntercalate "/" comps

/-- Python's `os.path.dirname` for a path with no trailing separator. -/
def osDirname (p : String) : String :=
  strIntercalate "/" ((strSplit '/' p).dropLast)

/-- The final path component, `Path(p).name` (empty and `.` components are
not part of a pathlib path). -/
def pathName (p : String) : String :=
  (((strSplit '/' p).filter (fun c => c ≠ "" && c ≠ "."))).getLastD ""

/-- Drop leading dot characters, Python's `name.lstrip('.')`. -/
def lstripDot : List Char → List Char
  | '.' :: cs => lstripDot cs
  | cs => cs

/-- Python's `Path(p).suffixes`: empty when the name ends in a dot, else the
dot-separated pieces of the name after its first, each with a leading dot. -/
def pathSuffixes (p : String) : List String :=
  let name := pathName p
  if strEndsWith name "." then []
  else
    match strSplit '.' (String.mk (lstripDot name.data)) with
    | [] => []
    | _ :: rest => rest.map (fun s => "." ++ s)

/-! Filesystem model. -/

/-- Filesystem model: the collection of existing paths (directories and files
alike). -/
abbrev Fs := List String

/-- Whether path `p` exists. -/
def fsExists (fs : Fs) (p : String) : Bool := fs.contains p

/-- Create a path. -/
def fsWrite (fs : Fs) (p : String) : Fs := p :: fs

/-- Create several paths. -/
def fsWriteAll (fs : Fs) (ps : List String) : Fs := ps.foldl fsWrite fs

/-- Remove one path (`Path.unlink`). -/
def fsRemove (fs : Fs) (p : String) : Fs := fs.filter (fun q => !(q == p))

/-- Recursively remove a directory (`shutil.rmtree`): drop the directory and
every path beneath it. -/
def fsRmtree (fs : Fs) (d : String) : Fs :=
  fs.filter (fun q => !(q == d || strStartsWith q (d ++ "/")))

/-- Whether an `Except` value is an exception. -/
def exceptErrored {ε α : Type} : Except ε α → Bool
  | .ok _ => false
  | .error _ => true

/-! Definitions from `main.py`. -/

/-- `PARQUET_SUFFIXES` from `main.py`. -/
def PARQUET_SUFFIXES : List String := [".parquet"]

/-- `TAR_SUFFIXES` from `main.py`. -/
def TAR_SUFFIXES : List String := [".tar", ".tar.gz", ".tgz", ".tar.bz2", ".tar.xz"]

/-- The merged suffix computed inside `classify_files`:
`"".join(suffixes[-2:])` when there are at least two suffixes, else the final
suffix. -/
def mergedSfx (sfx : List String) : String :=
  if sfx.length ≥ 2 then String.join (sfx.drop (sfx.length - 2))
  else sfx.getLastD ""

/-- The loop body of `classify_files`: skip a path with no suffixes, append
one with `.parquet` among its suffixes to the parquet partition, and one
whose merged or final suffix is a tar suffix to the tar partition. -/
def classifyStep (acc : List String × List String) (file_path : String) :
    List String × List String :=
  let sfx := pathSuffixes file_path
  if sfx.isEmpty then acc
  else if sfx.any (fun s => PARQUET_SUFFIXES.contains s) then
    (acc.1 ++ [file_path], acc.2)
  else if TAR_SUFFIXES.contains (mergedSfx sfx) || TAR_SUFFIXES.contains (sfx.getLastD "") then
    (acc.1, acc.2 ++ [file_path])
  else acc

/-- `classify_files` from `main.py`: walk the listed paths accumulating the
two partitions. -/
def classify_files (repo_files : List String) : List String × List String :=
  repo_files.foldl classifyStep ([], [])

/-- Whether `classify_files` puts the path in the parquet partition. -/
def isParquetFile (p : String) : Bool :=
  !(pathSuffixes p).isEmpty && (pathSuffixes p).any (fun s => PARQUET_SUFFIXES.contains s)

/-- Whether `classify_files` puts the path in the tar partition. -/
def isTarFile (p : String) : Bool :=
  let sfx := pathSuffixes p
  !sfx.isEmpty && !(sfx.any (fun s => PARQUET_SUFFIXES.contains s)) &&
    (TAR_SUFFIXES.contains (mergedSfx sfx) || TAR_SUFFIXES.contains (sfx.getLastD ""))

/-- `ensure_path_is_within` from `main.py`:
`target_path.resolve().relative_to(base_dir.resolve())` succeeds exactly when
the resolved base's components are a leading segment of the resolved
target's; on failure a `RuntimeError` is raised. -/
def ensure_path_is_within (base_dir target_path : String) : Except String Unit :=
  if (resolveComps base_dir).isPrefixOf (resolveComps target_path) then .ok ()
  else .error ("Archive member would extract outside of " ++ base_dir)

/-- The member-checking loop of `extract_tar_archive`: every member is
checked before anything is extracted. -/
def checkMembers (destination : String) : List String → Except String Unit
  | [] => .ok ()
  | m :: ms =>
      match ensure_path_is_within destination (osJoin destination m) with
      | .error e => .error e
      | .ok _ => checkMembers destination ms

/-- `extract_tar_archive` from `main.py`: a missing archive prints a warning
and returns normally; otherwise every member is containment-checked up
front (raising before anything is written), then all members are extracted
and the archive is deleted unless `keep_archive`. -/
def extract_tar_archive (fs : Fs) (archive_path : String) (keep_archive : Bool)
    (extraction_path : String) (members : List String) : Fs × Except String Unit :=
  if !fsExists fs archive_path then (fs, .ok ())
  else
    match checkMembers extraction_path members with
    | .error e => (fs, .error e)
    | .ok _ =>
        let fs1 := fsWriteAll fs (members.map (osJoin extraction_path))
        let fs2 := if keep_archive then fs1 else fsRemove fs1 archive_path
        (fs2, .ok ())

/-- The zero-candidate gate in `main` of `main.py`: when classification finds
neither parquet nor tar files, the process prints to stderr and exits with
status 1 (modelled as `.error`). -/
def mainPyNoFilesGate (repo_files : List String) : Except String Unit :=
  let c := classify_files repo_files
  if c.1.isEmpty && c.2.isEmpty then .error "exit 1: No parquet or tar files detected"
  else .ok ()

/-- The empty-pattern gate of `download_assets` in `main.py`: raises
`RuntimeError` when no patterns were selected. -/
def download_assets_gate (patterns : List String) : Except String Unit :=
  if patterns.isEmpty then
    .error "No matching parquet or tar files found in the dataset repository"
  else .ok ()

/-! Definitions from `gcs_uploader.py`. -/

/-- `SOURCE_ROOT` from `gcs_uploader.py` (`os.path.expanduser` applied to
`~/upgraded-barnacle/`), as a function of the home directory. -/
def SOURCE_ROOT (home : String) : String := home ++ "/upgraded-barnacle/"

/-- `BUCKET_NAME` from `gcs_uploader.py`. -/
def BUCKET_NAME : String := "vaani-tts-master"

/-- `MAX_WORKERS` from `gcs_uploader.py`: the worker-pool size. -/
def MAX_WORKERS : Nat := 4

/-- `TEMP_BASE_DIR` from `gcs_uploader.py`: the staging root under the
current working directory. -/
def TEMP_BASE_DIR (cwd : String) : String := osJoin cwd "temp_extraction_work"

/-- `DRY_RUN` from `gcs_uploader.py` (set to `True` in the source). -/
def DRY_RUN : Bool := true

/-- The temporary workspace of one job: `os.path.join(TEMP_BASE_DIR, unique_id)`. -/
def tempDirOf (cwd unique_id : String) : String :=
  osJoin (TEMP_BASE_DIR cwd) unique_id

/-- The destination URI a job derives:
`gs://BUCKET_NAME/<dirname(relpath(tar_path, SOURCE_ROOT))>/`. -/
def gcsDest (home tar_path : String) : String :=
  "gs://" ++ BUCKET_NAME ++ "/" ++ osDirname (osRelpath tar_path (SOURCE_ROOT home)) ++ "/"

/-- Observable outcomes of the external processes one job touches, and the
archive's member names as the in-process reader would enumerate them. -/
structure JobEnv where
  systemTarOk : Bool
  tarOpenOk : Bool
  members : List String
  makedirsOk : Bool
  uploadRaises : Bool
  uploadReturncode : Int
deriving DecidableEq

/-- A recorded invocation of the external copy tool: the argument list and
the working directory it runs in (none when inherited). -/
structure UploadCall where
  args : List String
  cwd : Option String
deriving DecidableEq

/-- `is_within_directory` from `gcs_uploader.process_tar_file`: the
character-wise common prefix of the absolute forms of directory and target
must equal the directory. -/
def is_within_directory (directory target : String) : Bool :=
  osCommonPref (abspath directory) (abspath target) == abspath directory

/-- The `tarfile.extractall(members=safe_members(tar))` loop of the fallback
extractor: members are checked and extracted one at a time, so members
preceding the first offending one are written before the path-traversal
exception is raised. -/
def safe_members_extract (temp_dir : String) : List String → Fs → Fs × Except String Unit
  | [], fs => (fs, .ok ())
  | m :: ms, fs =>
      let member_path := osJoin temp_dir m
      if is_within_directory temp_dir member_path then
        safe_members_extract temp_dir ms (fsWrite fs member_path)
      else
        (fs, .error "Attempted Path Traversal in Tar File")

/-- `extract_with_system_tar`: runs the external `tar -xf tar_path -C dest_dir`
and returns `false` both when the command exits non-zero and when launching
it raises. On success the external process has written the archive's members
under `dest_dir`; the code applies no containment check on this path. -/
def extract_with_system_tar (env : JobEnv) (dest_dir : String) (fs : Fs) : Fs × Bool :=
  if env.systemTarOk then (fsWriteAll fs (env.members.map (osJoin dest_dir)), true)
  else (fs, false)

/-- The upload command `process_tar_file` builds: source argument `.`,
executed with the job's workspace as working directory. -/
def gcs_upload_call (home cwd tar_path unique_id : String) : UploadCall :=
  { args := ["gcloud", "storage", "cp", "-r", ".", gcsDest home tar_path],
    cwd := some (tempDirOf cwd unique_id) }

/-- The `try:` block of `process_tar_file`: workspace creation, extraction by
system tar with the in-process fallback, then the upload. `.ok b` models a
normal `return b`; `.error` an exception escaping the block (to be caught by
the function's outer `except`). The second component of the result records
the in-process fallback invocations `(tar_path, temp_dir)`, the third the
upload-tool invocations. The upload's exit status is not consulted anywhere
(the source's returncode check is commented out). -/
def process_tar_file_body (env : JobEnv) (home cwd tar_path unique_id : String) (fs : Fs) :
    Fs × Except String Bool × List (String × String) × List UploadCall :=
  let temp_dir := tempDirOf cwd unique_id
  if !env.makedirsOk then (fs, .error "makedirs failed", [], [])
  else
    let fs1 := fsWrite fs temp_dir
    let sys := extract_with_system_tar env temp_dir fs1
    let stage : Fs × Except String Unit × List (String × String) :=
      if sys.2 then (sys.1, .ok (), [])
      else
        if env.tarOpenOk then
          let r := safe_members_extract temp_dir env.members sys.1
          (r.1, r.2, [(tar_path, temp_dir)])
        else (sys.1, .error "tarfile.open failed", [(tar_path, temp_dir)])
    match stage with
    | (fs2, .error _, fb) => (fs2, .ok false, fb, [])
    | (fs2, .ok _, fb) =>
        let call := gcs_upload_call home cwd tar_path unique_id
        if env.uploadRaises then (fs2, .error "upload raised", fb, [call])
        else (fs2, .ok true, fb, [call])

/-- The full result of one `process_tar_file` call. -/
structure JobRun where
  fs : Fs
  ret : Bool
  fallbackCalls : List (String × String)
  uploadCalls : List UploadCall
deriving DecidableEq

/-- `process_tar_file` from `gcs_uploader.py`: the body, the outer
`except Exception: return False`, and the `finally:` removal of the
workspace when it exists. -/
def process_tar_file (env : JobEnv) (home cwd tar_path unique_id : String) (fs : Fs) : JobRun :=
  let temp_dir := tempDirOf cwd unique_id
  let b := process_tar_file_body env home cwd tar_path unique_id fs
  let ret := match b.2.1 with | .ok v => v | .error _ => false
  let fs2 := if fsExists b.1 temp_dir then fsRmtree b.1 temp_dir else b.1
  { fs := fs2, ret := ret, fallbackCalls := b.2.2.1, uploadCalls := b.2.2.2 }

/-- The extraction stage of a job succeeds: the system tar exits cleanly, or
the fallback opens the archive and every member passes the containment
check. -/
def extractionSucceeds (env : JobEnv) (temp_dir : String) : Bool :=
  env.systemTarOk ||
    (env.tarOpenOk &&
      !env.members.any (fun m => !is_within_directory temp_dir (osJoin temp_dir m)))

/-- The in-process fallback fails: the archive cannot be opened, or some
member fails the containment check. -/
def fallbackFails (env : JobEnv) (temp_dir : String) : Bool :=
  !env.tarOpenOk ||
    env.members.any (fun m => !is_within_directory temp_dir (osJoin temp_dir m))

/-- One discovered archive together with its job's environment and the
unique token its workspace name is derived from. -/
structure GcsJob where
  env : JobEnv
  tarPath : String
  uniqueId : String

/-- The worker-pool loop of `main`: every submitted job yields a boolean
outcome via `process_tar_file`; outcomes are collected for aggregation. -/
def runJobs (home cwd : String) : List GcsJob → Fs → Fs × List Bool
  | [], fs => (fs, [])
  | j :: js, fs =>
      let r := process_tar_file j.env home cwd j.tarPath j.uniqueId fs
      let rest := runJobs home cwd js r.fs
      (rest.1, r.ret :: rest.2)

/-- Terminal state of `main` in `gcs_uploader.py`: the zero-file early
return, or normal completion with the aggregated counters. -/
inductive GcsResult where
  | noFilesFound
  | summary (successful failed : Nat)
deriving DecidableEq

/-- What one `main` invocation of `gcs_uploader.py` produced. -/
structure GcsRun where
  fs : Fs
  outcome : Except String GcsResult
  jobOutcomes : List Bool

/-- `main` from `gcs_uploader.py`: the gcloud precondition (absence raises,
modelled as `.error`), creation of the staging root, the glob result
`jobs`, the zero-file early return (a plain `return`: the process exits with
status 0), the `DRY_RUN` truncation to the first two files, the worker pool,
the aggregation of outcomes, and the final removal of the staging root. -/
def gcsMain (gcloudPresent : Bool) (home cwd : String) (jobs : List GcsJob) (fs : Fs) : GcsRun :=
  if !gcloudPresent then
    { fs := fs, outcome := .error "gcloud CLI is not found", jobOutcomes := [] }
  else
    let fs0 := if fsExists fs (TEMP_BASE_DIR cwd) then fs else fsWrite fs (TEMP_BASE_DIR cwd)
    if jobs.length = 0 then
      { fs := fs0, outcome := .ok .noFilesFound, jobOutcomes := [] }
    else
      let files := if DRY_RUN then jobs.take 2 else jobs
      let r := runJobs home cwd files fs0
      let successful := r.2.count true
      let failed := r.2.count false
      let fs2 := if fsExists r.1 (TEMP_BASE_DIR cwd) then fsRmtree r.1 (TEMP_BASE_DIR cwd) else r.1
      { fs := fs2, outcome := .ok (.summary successful failed), jobOutcomes := r.2 }

/-- `run_gcloud_storage_upload` from `main.py`: the constructed command; the
source argument is the directory itself and no working directory is set. -/
def run_gcloud_storage_upload_cmd (local_dir gcs_destination : String) : UploadCall :=
  { args := ["gcloud", "storage", "cp", "-r", local_dir, gcs_destination], cwd := none }

/-- Modelled from the spec (external capability, `recursive remote copy`,
specified only at its interface boundary): the objects a
`gcloud storage cp -r SRC DEST` invocation creates, given the files (as
paths relative to the copied directory) that the source holds. Copying `.`
from inside a directory places each file directly at `DEST ++ relative
path`; copying a directory by name places its files under an additional
component named after the directory. -/
def copyTool (call : UploadCall) (relFiles : List String) : List String :=
  match call.args with
  | [_, _, _, _, src, dest] =>
      if src = "." then relFiles.map (fun f => dest ++ f)
      else relFiles.map (fun f => dest ++ pathName src ++ "/" ++ f)
  | _ => []

/-! Worker-pool interleaving model, for the concurrency bound. -/

/-- State of the worker pool: the number of jobs not yet started, the
in-flight jobs (each flagged with whether its workspace currently exists on
disk), and the number of finished jobs. -/
structure PoolState where
  pending : Nat
  running : List Bool
  done : Nat
deriving DecidableEq

/-- The pool before any job has started. -/
def initPool (n : Nat) : PoolState := ⟨n, [], 0⟩

/-- Number of workspaces existing in a pool state. -/
def wsCount (s : PoolState) : Nat := s.running.count true

/-- Interleaving semantics of the `ThreadPoolExecutor(max_workers=MAX_WORKERS)`
run of `process_tar_file` jobs: a pending job starts only when fewer than
`MAX_WORKERS` jobs are in flight; an in-flight job creates its workspace
(`os.makedirs(temp_dir)`) at some point after starting; a job leaves the pool
only through `process_tar_file`'s `finally`, which removes its workspace. -/
inductive PoolStep : PoolState → PoolState → Prop
  | start (s : PoolState) (h : s.running.length < MAX_WORKERS) (hp : s.pending ≠ 0) :
      PoolStep s ⟨s.pending - 1, false :: s.running, s.done⟩
  | alloc (p : Nat) (l r : List Bool) (d : Nat) :
      PoolStep ⟨p, l ++ false :: r, d⟩ ⟨p, l ++ true :: r, d⟩
  | finish (p : Nat) (l r : List Bool) (b : Bool) (d : Nat) :
      PoolStep ⟨p, l ++ b :: r, d⟩ ⟨p, l ++ r, d + 1⟩

/-- Reachability under pool steps. -/
inductive PoolReach (s0 : PoolState) : PoolState → Prop
  | refl : PoolReach s0 s0
  | step {s t : PoolState} : PoolReach s0 s → PoolStep s t → PoolReach s0 t

/-! Helper lemmas. -/

/-- A path failing the filter predicate is absent from the filtered list. -/
theorem contains_filter (f : String → Bool) (p : String) :
    ∀ l : List String, (l.filter f).contains p = (l.contains p && f p)
  | [] => by simp
  | a :: t => by
      by_cases hp : p = a
      · subst hp
        cases hf : f p <;>
          simp [List.filter_cons, hf, List.contains_cons, contains_filter f p t]
      · cases hf : f a <;>
          simp [List.filter_cons, hf, List.contains_cons, hp, contains_filter f p t]

/-- After `fsRmtree fs d`, the directory `d` itself no longer exists. -/
theorem fsExists_fsRmtree_self (fs : Fs) (d : String) :
    fsExists (fsRmtree fs d) d = false := by
  unfold fsExists fsRmtree
  rw [contains_filter]
  simp

/-- The boolean outcomes of a run split the run: trues plus falses make up
every job. -/
theorem count_true_add_count_false :
    ∀ l : List Bool, l.count true + l.count false = l.length
  | [] => rfl
  | b :: t => by
      have ih := count_true_add_count_false t
      cases b <;> simp [List.count_cons] <;> omega

/-- The member-checking loop raises exactly when some member escapes. -/
theorem checkMembers_errored (dest : String) :
    ∀ ms : List String,
      exceptErrored (checkMembers dest ms) =
        ms.any (fun m => exceptErrored (ensure_path_is_within dest (osJoin dest m)))
  | [] => rfl
  | m :: ms => by
      unfold checkMembers
      cases h : ensure_path_is_within dest (osJoin dest m) with
      | ok u =>
          have hh : exceptErrored (ensure_path_is_within dest (osJoin dest m)) = false := by
            rw [h]; rfl
          simp [List.any_cons, hh, checkMembers_errored dest ms]
      | error e => simp [List.any_cons, h, exceptErrored]

/-- The streaming fallback extraction raises exactly when some member fails
the containment check. -/
theorem safe_members_errored (td : String) :
    ∀ (ms : List String) (fs : Fs),
      exceptErrored (safe_members_extract td ms fs).2 =
        ms.any (fun m => !is_within_directory td (osJoin td m))
  | [], _ => rfl
  | m :: ms, fs => by
      unfold safe_members_extract
      cases h : is_within_directory td (osJoin td m) with
      | true => simp [h, List.any_cons, safe_members_errored td ms]
      | false => simp [h, List.any_cons, exceptErrored]

/-- The streaming fallback extraction writes exactly the members preceding
the first offending one. -/
theorem safe_members_fs (td : String) :
    ∀ (ms : List String) (fs : Fs),
      (safe_members_extract td ms fs).1 =
        fsWriteAll fs
          ((ms.takeWhile (fun m => is_within_directory td (osJoin td m))).map (osJoin td))
  | [], _ => rfl
  | m :: ms, fs => by
      unfold safe_members_extract
      cases h : is_within_directory td (osJoin td m) <;>
        simp [h, List.takeWhile_cons, fsWriteAll, safe_members_fs td ms]

/-- The two partition predicates exclude each other. -/
theorem parquet_tar_exclusive (p : String) :
    (isParquetFile p && isTarFile p) = false := by
  unfold isParquetFile isTarFile
  cases h2 : (pathSuffixes p).any (fun s => PARQUET_SUFFIXES.contains s) <;>
    · simp only [h2]
      simp

/-- One classification step, written through the two partition predicates. -/
theorem classifyStep_eq (acc : List String × List String) (a : String) :
    classifyStep acc a =
      if isParquetFile a then (acc.1 ++ [a], acc.2)
      else if isTarFile a then (acc.1, acc.2 ++ [a])
      else acc := by
  unfold classifyStep isParquetFile isTarFile
  cases h1 : (pathSuffixes a).isEmpty <;>
    cases h2 : (pathSuffixes a).any (fun s => PARQUET_SUFFIXES.contains s) <;>
      cases h3 :
          (TAR_SUFFIXES.contains (mergedSfx (pathSuffixes a)) ||
            TAR_SUFFIXES.contains ((pathSuffixes a).getLastD "")) <;>
        · simp only [h1, h2, h3]
          simp

/-- The classification loop computes the two suffix-predicate filters. -/
theorem classify_foldl :
    ∀ (files : List String) (acc : List String × List String),
      files.foldl classifyStep acc =
        (acc.1 ++ files.filter isParquetFile, acc.2 ++ files.filter isTarFile)
  | [], acc => by simp
  | a :: t, acc => by
      rw [List.foldl_cons, classify_foldl t, classifyStep_eq]
      have hx := parquet_tar_exclusive a
      cases hp : isParquetFile a <;> cases ht : isTarFile a <;>
        first
          | (rw [hp, ht] at hx; exact absurd hx (by decide))
          | (simp only [hp, ht, List.filter_cons]
             simp [List.append_assoc])

/-- When the workspace is created, extraction succeeds and launching the
upload does not raise, the job body returns `True` and records exactly one
upload invocation, built by `gcs_upload_call`. -/
theorem body_extraction_ok (env : JobEnv) (home cwd tar_path unique_id : String) (fs : Fs)
    (hmk : env.makedirsOk = true) (hup : env.uploadRaises = false)
    (hex : extractionSucceeds env (tempDirOf cwd unique_id) = true) :
    (process_tar_file_body env home cwd tar_path unique_id fs).2.1 = .ok true ∧
      (process_tar_file_body env home cwd tar_path unique_id fs).2.2.2 =
        [gcs_upload_call home cwd tar_path unique_id] := by
  unfold process_tar_file_body extract_with_system_tar
  rw [hmk]
  cases hsys : env.systemTarOk with
  | true => simp [hup]
  | false =>
      unfold extractionSucceeds at hex
      rw [hsys] at hex
      simp only [Bool.false_or, Bool.and_eq_true] at hex
      obtain ⟨ht, hno⟩ := hex
      cases hr : (safe_members_extract (tempDirOf cwd unique_id) env.members
          (fsWrite fs (tempDirOf cwd unique_id))).2 with
      | ok u => simp [ht, hr, hup]
      | error e =>
          have he := safe_members_errored (tempDirOf cwd unique_id) env.members
            (fsWrite fs (tempDirOf cwd unique_id))
          rw [hr] at he
          simp only [exceptErrored] at he
          rw [← he] at hno
          simp at hno

/-! Claim theorems. -/

/-- C8 (counterexample to the claim as stated): `a.parquet.tar` ends in
`.tar` yet `classify_files` places it in the tabular (parquet) partition and
not in the archive partition, because the `.parquet` membership test over all
suffixes runs before the tar-suffix test. -/
theorem c8_counterexample :
    strEndsWith "a.parquet.tar" ".tar" = true ∧
      classify_files ["a.parquet.tar"] = (["a.parquet.tar"], []) :=
  ⟨rfl, rfl⟩

/-- C8 (amended): for every listed path, membership in the tabular partition
is exactly presence in the input with a nonempty suffix list containing
`.parquet`; membership in the archive partition is exactly presence in the
input with a nonempty suffix list free of `.parquet` whose merged last-two
or final suffix is one of `.tar`, `.tar.gz`, `.tgz`, `.tar.bz2`, `.tar.xz`;
and no path passes both tests. -/
theorem c8_classify_partition (files : List String) (p : String) :
    (classify_files files).1.contains p = (files.contains p && isParquetFile p) ∧
      (classify_files files).2.contains p = (files.contains p && isTarFile p) ∧
      (isParquetFile p && isTarFile p) = false := by
  refine ⟨?_, ?_, parquet_tar_exclusive p⟩ <;>
  · unfold classify_files
    rw [classify_foldl]
    simp [contains_filter]

/-- C10 (confirmed): when the archive file does not exist on disk,
`extract_tar_archive` only prints a warning and returns normally with the
filesystem unchanged — the same result shape as a successful extraction, so
the caller cannot tell a missing archive from a successfully processed one. -/
theorem c10_missing_archive (fs : Fs) (archive_path : String) (keep : Bool)
    (extraction_path : String) (members : List String)
    (h : fsExists fs archive_path = false) :
    extract_tar_archive fs archive_path keep extraction_path members = (fs, .ok ()) := by
  unfold extract_tar_archive
  rw [h]
  rfl

/-- Witness for C10 at a concrete missing archive. -/
theorem c10_missing_archive_witness :
    fsExists [] "/data/a.tar" = false ∧
      extract_tar_archive [] "/data/a.tar" false "/dest" ["m.txt"] = ([], .ok ()) :=
  ⟨rfl, c10_missing_archive [] "/data/a.tar" false "/dest" ["m.txt"] rfl⟩

/-- C2 (confirmed): whatever the job's environment — success, extraction
failure, workspace-creation failure, or a raising upload — after
`process_tar_file` returns, the job's workspace directory no longer exists
on disk. -/
theorem c2_workspace_removed (env : JobEnv) (home cwd tar_path unique_id : String) (fs : Fs) :
    fsExists (process_tar_file env home cwd tar_path unique_id fs).fs
      (tempDirOf cwd unique_id) = false := by
  unfold process_tar_file
  cases h : fsExists (process_tar_file_body env home cwd tar_path unique_id fs).1
      (tempDirOf cwd unique_id) <;>
    simp [h, fsExists_fsRmtree_self]

/-- C1 (counterexample to the claim as stated): for an archive with members
`["a.txt", "../../etc/passwd"]`, the in-process fallback reader of
`gcs_uploader.py` does raise a path-traversal error, but the member `a.txt`
preceding the offending member has already been written into the workspace —
extraction is not all-or-nothing, so the guarantee does not hold identically
in both code paths. -/
theorem c1_counterexample :
    exceptErrored (safe_members_extract "/work/temp_extraction_work/j0"
        ["a.txt", "../../etc/passwd"] []).2 = true ∧
      fsExists (safe_members_extract "/work/temp_extraction_work/j0"
          ["a.txt", "../../etc/passwd"] []).1
        "/work/temp_extraction_work/j0/a.txt" = true :=
  ⟨rfl, rfl⟩

/-- C1 (amended): an archive containing a member whose resolved path escapes
the destination is rejected with a path-traversal error by both in-process
readers, but their write behaviour differs: `main.py`'s extractor checks all
members before extracting anything and leaves the filesystem unchanged,
while `gcs_uploader.py`'s fallback writes exactly the members preceding the
first offending one before raising (the offending member itself is never
written). -/
theorem c1_traversal :
    (∀ (fs : Fs) (archive_path extraction_path : String) (keep : Bool) (members : List String),
        fsExists fs archive_path = true →
        members.any (fun m =>
            exceptErrored (ensure_path_is_within extraction_path (osJoin extraction_path m))) = true →
        (extract_tar_archive fs archive_path keep extraction_path members).1 = fs ∧
          exceptErrored (extract_tar_archive fs archive_path keep extraction_path members).2 = true) ∧
    (∀ (temp_dir : String) (members : List String) (fs : Fs),
        members.any (fun m => !is_within_directory temp_dir (osJoin temp_dir m)) = true →
        exceptErrored (safe_members_extract temp_dir members fs).2 = true ∧
          (safe_members_extract temp_dir members fs).1 =
            fsWriteAll fs
              ((members.takeWhile (fun m => is_within_directory temp_dir (osJoin temp_dir m))).map
                (osJoin temp_dir))) := by
  constructor
  · intro fs archive_path extraction_path keep members hfs hany
    have hc : exceptErrored (checkMembers extraction_path members) = true := by
      rw [checkMembers_errored]; exact hany
    cases h : checkMembers extraction_path members with
    | ok u => rw [h] at hc; simp [exceptErrored] at hc
    | error e => simp [extract_tar_archive, hfs, h, exceptErrored]
  · intro temp_dir members fs hany
    exact ⟨by rw [safe_members_errored]; exact hany, safe_members_fs temp_dir members fs⟩

/-- Witness for C1's amended statement at a concrete archive whose second
member escapes the destination. -/
theorem c1_traversal_witness :
    (fsExists ["/d/a.tar"] "/d/a.tar" = true ∧
        (extract_tar_archive ["/d/a.tar"] "/d/a.tar" false "/x" ["m.txt", "../esc"]).1 =
            ["/d/a.tar"] ∧
          exceptErrored
            (extract_tar_archive ["/d/a.tar"] "/d/a.tar" false "/x" ["m.txt", "../esc"]).2 = true) ∧
      exceptErrored (safe_members_extract "/w/t" ["../esc"] []).2 = true :=
  ⟨⟨rfl, c1_traversal.1 ["/d/a.tar"] "/d/a.tar" "/x" false ["m.txt", "../esc"] rfl rfl⟩,
    (c1_traversal.2 "/w/t" ["../esc"] [] rfl).1⟩

/-- C4 (confirmed): when the external tar reports non-zero status or raises
and the workspace was created, the same archive is retried with the
in-process reader against the same workspace exactly once (the singleton
retry list shows there is no further retry), and when that fallback also
fails — archive unreadable or a traversal member — the job returns `False`,
recording it as Failed. -/
theorem c4_fallback_once (env : JobEnv) (home cwd tar_path unique_id : String) (fs : Fs)
    (hmk : env.makedirsOk = true) (hsys : env.systemTarOk = false) :
    (process_tar_file env home cwd tar_path unique_id fs).fallbackCalls =
        [(tar_path, tempDirOf cwd unique_id)] ∧
      (fallbackFails env (tempDirOf cwd unique_id) = true →
        (process_tar_file env home cwd tar_path unique_id fs).ret = false) := by
  unfold process_tar_file process_tar_file_body extract_with_system_tar
  rw [hmk, hsys]
  cases htar : env.tarOpenOk with
  | false => simp [fallbackFails, htar]
  | true =>
      cases hr : (safe_members_extract (tempDirOf cwd unique_id) env.members
          (fsWrite fs (tempDirOf cwd unique_id))).2 with
      | ok u =>
          have he := safe_members_errored (tempDirOf cwd unique_id) env.members
            (fsWrite fs (tempDirOf cwd unique_id))
          rw [hr] at he
          simp only [exceptErrored] at he
          simp [htar, hr, fallbackFails, ← he]
          cases hup : env.uploadRaises <;> simp [hup]
      | error e => simp [htar, hr, fallbackFails]

/-- Witness for C4 at a concrete job whose external tar fails and whose
fallback hits a traversal member. -/
theorem c4_fallback_once_witness :
    (process_tar_file ⟨false, true, ["a.txt", "../../esc"], true, false, 0⟩ "/h" "/cwd"
          "/h/upgraded-barnacle/x/f.tar" "j0" []).fallbackCalls =
        [("/h/upgraded-barnacle/x/f.tar", tempDirOf "/cwd" "j0")] ∧
      (process_tar_file ⟨false, true, ["a.txt", "../../esc"], true, false, 0⟩ "/h" "/cwd"
          "/h/upgraded-barnacle/x/f.tar" "j0" []).ret = false :=
  have h := c4_fallback_once ⟨false, true, ["a.txt", "../../esc"], true, false, 0⟩
    "/h" "/cwd" "/h/upgraded-barnacle/x/f.tar" "j0" [] rfl rfl
  ⟨h.1, h.2 rfl⟩

/-- C3 (counterexample to the claim as stated): a job whose publish tool
exits with status 1 is reported as successful (`True`), not Failed, and no
publish error is surfaced — the returncode check in the source is commented
out. -/
theorem c3_counterexample :
    JobEnv.uploadReturncode ⟨true, true, ["a.txt"], true, false, 1⟩ = 1 ∧
      (process_tar_file ⟨true, true, ["a.txt"], true, false, 1⟩ "/h" "/cwd"
          "/h/upgraded-barnacle/x/000/f.tar" "j0" []).ret = true :=
  ⟨rfl, rfl⟩

/-- C3 (amended): the copy tool's exit status is never consulted — whenever
the workspace is created, extraction succeeds and the tool can be launched,
the job is recorded as successful whatever the tool's exit status; and no
job's publish outcome aborts its siblings: the pool produces one outcome
per submitted job. -/
theorem c3_publish_ignored :
    (∀ (env : JobEnv) (rc : Int) (home cwd tar_path unique_id : String) (fs : Fs),
        env.makedirsOk = true → env.uploadRaises = false →
        extractionSucceeds env (tempDirOf cwd unique_id) = true →
        (process_tar_file { env with uploadReturncode := rc }
            home cwd tar_path unique_id fs).ret = true) ∧
    (∀ (home cwd : String) (jobs : List GcsJob) (fs : Fs),
        ((runJobs home cwd jobs fs).2).length = jobs.length) := by
  constructor
  · intro env rc home cwd tar_path unique_id fs hmk hup hex
    have h := body_extraction_ok { env with uploadReturncode := rc }
      home cwd tar_path unique_id fs hmk hup hex
    simp [process_tar_file, h.1]
  · intro home cwd jobs fs
    induction jobs generalizing fs with
    | nil => rfl
    | cons j js ih => simp [runJobs, ih]

/-- Witness for C3's amended statement: a concrete job with exit status 1
recorded as successful, and a pool of one job yielding one outcome. -/
theorem c3_publish_ignored_witness :
    (process_tar_file ⟨true, true, ["a.txt"], true, false, 1⟩ "/h" "/cwd"
          "/h/upgraded-barnacle/x/f.tar" "j1" []).ret = true ∧
      (runJobs "/h" "/cwd" [⟨⟨true, true, [], true, false, 0⟩, "/h/upgraded-barnacle/a.tar", "u1"⟩]
          []).2.length = 1 :=
  ⟨c3_publish_ignored.1 ⟨true, true, ["a.txt"], true, false, 0⟩ 1 "/h" "/cwd"
      "/h/upgraded-barnacle/x/f.tar" "j1" [] rfl rfl rfl,
    c3_publish_ignored.2 "/h" "/cwd"
      [⟨⟨true, true, [], true, false, 0⟩, "/h/upgraded-barnacle/a.tar", "u1"⟩] []⟩

/-- C5 (confirmed): with the copy tool present a run never ends in an
uncaught exception whatever each job's failures are; a non-empty run always
completes with a summary whose success and failure counts add up to the
number of processed jobs; and an exception escaping a job's `try:` body is
caught at the per-job boundary and recorded as a `False` outcome. -/
theorem c5_job_isolation :
    (∀ (home cwd : String) (jobs : List GcsJob) (fs : Fs),
        exceptErrored (gcsMain true home cwd jobs fs).outcome = false) ∧
    (∀ (home cwd : String) (jobs : List GcsJob) (fs : Fs),
        jobs.length ≠ 0 →
        ∃ s f : Nat,
          (gcsMain true home cwd jobs fs).outcome = .ok (.summary s f) ∧
            s + f = (gcsMain true home cwd jobs fs).jobOutcomes.length) ∧
    (∀ (env : JobEnv) (home cwd tar_path unique_id : String) (fs : Fs),
        exceptErrored (process_tar_file_body env home cwd tar_path unique_id fs).2.1 = true →
        (process_tar_file env home cwd tar_path unique_id fs).ret = false) := by
  refine ⟨?_, ?_, ?_⟩
  · intro home cwd jobs fs
    by_cases hj : jobs.length = 0 <;> simp [gcsMain, hj, exceptErrored]
  · intro home cwd jobs fs hj
    simp only [gcsMain, Bool.not_true, hj, if_false, Bool.false_eq_true]
    exact ⟨_, _, rfl, count_true_add_count_false _⟩
  · intro env home cwd tar_path unique_id fs h
    unfold process_tar_file
    cases hb : (process_tar_file_body env home cwd tar_path unique_id fs).2.1 with
    | ok v => rw [hb] at h; simp [exceptErrored] at h
    | error e => simp [hb]

/-- Witness for C5: a one-job run completing with a summary, and a job whose
body raises (workspace creation fails) recorded as `False`. -/
theorem c5_job_isolation_witness :
    (∃ s f : Nat,
        (gcsMain true "/h" "/cwd"
            [⟨⟨true, true, [], true, false, 0⟩, "/h/upgraded-barnacle/a.tar", "u1"⟩] []).outcome =
            .ok (.summary s f) ∧
          s + f = (gcsMain true "/h" "/cwd"
            [⟨⟨true, true, [], true, false, 0⟩, "/h/upgraded-barnacle/a.tar", "u1"⟩]
            []).jobOutcomes.length) ∧
      (process_tar_file ⟨true, true, [], false, false, 0⟩ "/h" "/cwd" "/h/t.tar" "u2" []).ret =
        false :=
  ⟨c5_job_isolation.2.1 "/h" "/cwd"
      [⟨⟨true, true, [], true, false, 0⟩, "/h/upgraded-barnacle/a.tar", "u1"⟩] [] (by decide),
    c5_job_isolation.2.2 ⟨true, true, [], false, false, 0⟩ "/h" "/cwd" "/h/t.tar" "u2" [] rfl⟩

/-- C6 (counterexample to the claim as stated): with zero discovered
archives, `main` of `gcs_uploader.py` stops before scheduling any work, but
it does not abort with an error: it returns normally after printing an
advisory message, so the process exits with status 0. -/
theorem c6_counterexample :
    (gcsMain true "/h" "/cwd" [] []).outcome = .ok .noFilesFound ∧
      exceptErrored (gcsMain true "/h" "/cwd" [] []).outcome = false ∧
      (gcsMain true "/h" "/cwd" [] []).jobOutcomes = [] :=
  ⟨rfl, rfl, rfl⟩

/-- C6 (amended): when zero candidate archives are discovered the run stops
immediately: no job is processed and the filesystem gains at most the
staging root, so no per-job workspace is ever created; but
`gcs_uploader.py` terminates normally with a printed message rather than an
error, while `main.py`'s listing path does fail (exit 1 after empty
classification, and a `RuntimeError` on an empty pattern list). -/
theorem c6_no_match :
    (∀ (home cwd : String) (fs : Fs),
        (gcsMain true home cwd [] fs).outcome = .ok .noFilesFound ∧
          (gcsMain true home cwd [] fs).jobOutcomes = [] ∧
          (gcsMain true home cwd [] fs).fs =
            (if fsExists fs (TEMP_BASE_DIR cwd) then fs else fsWrite fs (TEMP_BASE_DIR cwd))) ∧
    (∀ repo_files : List String,
        classify_files repo_files = ([], []) →
        exceptErrored (mainPyNoFilesGate repo_files) = true) ∧
    exceptErrored (download_assets_gate []) = true := by
  refine ⟨?_, ?_, rfl⟩
  · intro home cwd fs
    by_cases h : fsExists fs (TEMP_BASE_DIR cwd) = true <;> simp [gcsMain, h]
  · intro repo_files h
    simp [mainPyNoFilesGate, h, exceptErrored]

/-- Witness for C6's amended statement at a concrete empty run and a
repository listing with no parquet or tar files. -/
theorem c6_no_match_witness :
    (gcsMain true "/h" "/cwd" [] ["/pre"]).outcome = .ok .noFilesFound ∧
      exceptErrored (mainPyNoFilesGate ["README.md"]) = true :=
  ⟨(c6_no_match.1 "/h" "/cwd" ["/pre"]).1, c6_no_match.2.1 ["README.md"] rfl⟩

/-- C7 (counterexample to the claim as stated): `main.py`'s upload passes
the directory itself (not its contents) to the copy tool, so a file `a.txt`
under `/home/u/Dataset/Svarah` lands at `gs://bucket/data/Svarah/a.txt` —
under an extra enclosing component named after the directory — and not
directly under the destination prefix. -/
theorem c7_counterexample :
    copyTool (run_gcloud_storage_upload_cmd "/home/u/Dataset/Svarah" "gs://bucket/data/")
        ["a.txt"] = ["gs://bucket/data/Svarah/a.txt"] ∧
      (copyTool (run_gcloud_storage_upload_cmd "/home/u/Dataset/Svarah" "gs://bucket/data/")
          ["a.txt"]).contains "gs://bucket/data/a.txt" = false :=
  ⟨rfl, rfl⟩

/-- C7 (amended): `gcs_uploader.py`'s publish does copy the workspace's
contents — it runs the copy tool on `.` from inside the workspace, and every
successful job issues exactly that call, so each extracted file appears
directly under the destination prefix at its relative path; `main.py`'s
upload instead passes the directory itself, so its files appear under an
extra component named after the local directory. -/
theorem c7_publish_contents :
    (∀ (home cwd tar_path unique_id : String) (relFiles : List String),
        copyTool (gcs_upload_call home cwd tar_path unique_id) relFiles =
          relFiles.map (fun f => gcsDest home tar_path ++ f)) ∧
    (∀ (env : JobEnv) (home cwd tar_path unique_id : String) (fs : Fs),
        env.makedirsOk = true → env.uploadRaises = false →
        extractionSucceeds env (tempDirOf cwd unique_id) = true →
        (process_tar_file env home cwd tar_path unique_id fs).uploadCalls =
          [gcs_upload_call home cwd tar_path unique_id]) ∧
    (∀ (local_dir gcs_destination : String) (relFiles : List String),
        (local_dir == ".") = false →
        copyTool (run_gcloud_storage_upload_cmd local_dir gcs_destination) relFiles =
          relFiles.map (fun f => gcs_destination ++ pathName local_dir ++ "/" ++ f)) := by
  refine ⟨?_, ?_, ?_⟩
  · intro home cwd tar_path unique_id relFiles
    rfl
  · intro env home cwd tar_path unique_id fs hmk hup hex
    have h := body_extraction_ok env home cwd tar_path unique_id fs hmk hup hex
    simp [process_tar_file, h.2]
  · intro local_dir gcs_destination relFiles h
    have hne : ¬(local_dir = ".") := beq_eq_false_iff_ne.mp h
    simp [copyTool, run_gcloud_storage_upload_cmd, hne]

/-- Witness for C7's amended statement at a concrete successful job and a
concrete `main.py` upload. -/
theorem c7_publish_contents_witness :
    (process_tar_file ⟨true, true, ["a.txt"], true, false, 0⟩ "/h" "/cwd"
          "/h/upgraded-barnacle/x/f.tar" "u1" []).uploadCalls =
        [gcs_upload_call "/h" "/cwd" "/h/upgraded-barnacle/x/f.tar" "u1"] ∧
      copyTool (run_gcloud_storage_upload_cmd "/home/u/Dataset/S" "gs://b/p/") ["a.txt"] =
        ["gs://b/p/" ++ pathName "/home/u/Dataset/S" ++ "/" ++ "a.txt"] :=
  ⟨c7_publish_contents.2.1 ⟨true, true, ["a.txt"], true, false, 0⟩ "/h" "/cwd"
      "/h/upgraded-barnacle/x/f.tar" "u1" [] rfl rfl rfl,
    c7_publish_contents.2.2 "/home/u/Dataset/S" "gs://b/p/" ["a.txt"] rfl⟩

/-- The pool never holds more than `MAX_WORKERS` in-flight jobs. -/
theorem pool_running_le (n : Nat) :
    ∀ s : PoolState, PoolReach (initPool n) s → s.running.length ≤ MAX_WORKERS := by
  intro s h
  induction h with
  | refl => simp [initPool, MAX_WORKERS]
  | step hr hs ih =>
      cases hs with
      | start s hlt hp =>
          simp only [List.length_cons]
          omega
      | alloc p l r d =>
          simp [List.length_append] at ih ⊢
          omega
      | finish p l r b d =>
          simp [List.length_append] at ih ⊢
          omega

/-- C9 (confirmed): in every state reachable by the worker-pool semantics —
jobs start only when a pool slot is free, create their workspace while
running, and remove it when they finish — the number of simultaneously
existing workspaces never exceeds `MAX_WORKERS`. -/
theorem c9_concurrency_bound (n : Nat) (s : PoolState) (h : PoolReach (initPool n) s) :
    wsCount s ≤ MAX_WORKERS :=
  le_trans (List.count_le_length true s.running) (pool_running_le n s h)

/-- Witness for C9 at a concrete reachable state: one job started and
holding its workspace. -/
theorem c9_concurrency_bound_witness : wsCount ⟨1, [true], 0⟩ ≤ MAX_WORKERS :=
  c9_concurrency_bound 2 ⟨1, [true], 0⟩
    (PoolReach.step
      (PoolReach.step PoolReach.refl (PoolStep.start (initPool 2) (by decide) (by decide)))
      (PoolStep.alloc 1 [] [] 0))

end Barnacle
